import Mathlib

/-!
Shallow embedding of the CocktailScraper repository, for checking the
natural-language specification against the code.

Covered source files:
* `src/core/tracking/usage_tracker.py` and `src/core/tracking/api_tracker.py`
  (the usage/cost ledger);
* `src/storage/bar_storage.py` (the SQLite bar store);
* `src/components/menu_scraper/controller.py` (bar selection);
* `src/components/menu_scraper/crawler.py` (`find_menu` aggregation);
* `src/components/menu_scraper/menu_processor.py` (LLM extraction wrapper).

Modelling conventions:
* Python floats are modelled as exact rationals (`ℚ`).
* Wall-clock timestamps (`datetime.now().isoformat()`) are passed in
  explicitly as opaque strings.
* External effects (tiktoken, the LLM, the browser, SQLite I/O) are
  modelled as oracle functions passed as parameters; database tables are
  lists of rows and file logs are lists of records, threaded explicitly.
-/

/-! ### Python string primitives -/

/-- Python `str.lower()` (character-wise; ASCII case folding as in
`Char.toLower`). -/
def pyLower (s : String) : String := String.mk (s.data.map Char.toLower)

/-- Python `str.replace(' ', '_')`: every space character becomes an
underscore (single-character replacement is a character-wise map). -/
def pySpaceToUnderscore (s : String) : String :=
  String.mk (s.data.map (fun c => if c = ' ' then '_' else c))

/-- Python `needle in hay` on character lists (substring containment). -/
def subLC (needle : List Char) : List Char → Bool
  | [] => needle.isEmpty
  | c :: rest => needle.isPrefixOf (c :: rest) || subLC needle rest

/-- Python `hay.find(needle) != -1` / `needle in hay` on strings. -/
def pyContains (hay needle : String) : Bool := subLC needle.data hay.data

/-- Python `s.startswith(p)`. -/
def pyStartsWith (s p : String) : Bool := p.data.isPrefixOf s.data

/-! ### A minimal JSON value type

Only the shapes the claims inspect are needed: nulls, strings and numbers
as object values.  A parsed top-level JSON object is an association list. -/

/-- JSON scalar values appearing in the bar records. -/
inductive Jv where
  | null : Jv
  | str : String → Jv
  | num : Int → Jv
deriving DecidableEq, Repr

/-- A parsed top-level JSON object (as produced by `json.loads` on the
`raw_data` column): an ordered association list of key/value pairs. -/
abbrev JObj := List (String × Jv)

/-- Key lookup in a JSON object (`obj[k]` / `k in obj`). -/
def jGet (o : JObj) (k : String) : Option Jv :=
  match o with
  | [] => none
  | (k0, v0) :: rest => if k0 = k then some v0 else jGet rest k

/-- Python `k in obj` for a parsed JSON object. -/
def jHasKey (o : JObj) (k : String) : Bool := o.any (fun kv => kv.1 = k)

/-- SQLite `json_set(obj, '$.k', v)` at a top-level key: replaces the value
at `k` when present, otherwise appends the new key at the end. -/
def jsonSetTop (o : JObj) (k : String) (v : Jv) : JObj :=
  match o with
  | [] => [(k, v)]
  | (k0, v0) :: rest =>
      if k0 = k then (k0, v) :: rest else (k0, v0) :: jsonSetTop rest k v

/-! ### Usage/cost ledger (`api_tracker.py`, `usage_tracker.py`) -/

/-- Model configuration entry (`model_config` dict): name and the two
per-1k-token rates. -/
structure ModelConfig where
  name : String
  cost_per_1k_input : ℚ
  cost_per_1k_output : ℚ
deriving DecidableEq

/-- One API call record as built by `APICallTracker.add_call`:
`{'timestamp', 'api_type', **details}`.  The details dict of an `'llm'`
call holds `input_tokens`, `output_tokens`, `cost`; the details dict of a
`'brave'` call holds `query`, `num_results`, `cost`.  The union of the
fields is carried here, with the unused ones zeroed. -/
structure CallRecord where
  timestamp : String
  api_type : String
  input_tokens : Nat
  output_tokens : Nat
  query : String
  num_results : Nat
  cost : ℚ
deriving DecidableEq

/-- `APICallTracker.brave_cost_per_call = 0.00083`. -/
def braveCostPerCall : ℚ := 83 / 100000

/-- `APICallTracker`: the append-only per-session call list. -/
structure APICallTracker where
  calls : List CallRecord
deriving DecidableEq

/-- `APICallTracker.add_call`: append the record, return it. -/
def APICallTracker.add_call (tr : APICallTracker) (c : CallRecord) :
    APICallTracker × CallRecord :=
  (⟨tr.calls ++ [c]⟩, c)

/-- `APICallTracker.get_total_brave_cost`: sum of `cost` over calls whose
`api_type` is `'brave'`. -/
def APICallTracker.get_total_brave_cost (tr : APICallTracker) : ℚ :=
  ((tr.calls.filter (fun c => c.api_type == "brave")).map (fun c => c.cost)).sum

/-- The `self.session` counter dict of `UsageTracker.reset_session`. -/
structure SessionState where
  input_tokens : Nat
  output_tokens : Nat
  search_queries : Nat
  start_time : String
  model : String
  search_results_truncated : Nat
  total_api_calls : Nat
deriving DecidableEq

/-- `UsageTracker` state: model config, the call tracker, and the session
counters.  The `log_file` path is not part of the state; the log itself is
threaded explicitly through `save_session`. -/
structure UsageTracker where
  model_config : ModelConfig
  api_tracker : APICallTracker
  session : SessionState
deriving DecidableEq

/-- `UsageTracker.reset_session`: zero the counters and restamp
`start_time`. -/
def UsageTracker.reset_session (t : UsageTracker) (now : String) : UsageTracker :=
  { t with session := ⟨0, 0, 0, now, t.model_config.name, 0, 0⟩ }

/-- `UsageTracker.__init__`: fresh `APICallTracker`, then `reset_session`. -/
def UsageTracker.start (cfg : ModelConfig) (now : String) : UsageTracker :=
  UsageTracker.reset_session ⟨cfg, ⟨[]⟩, ⟨0, 0, 0, now, cfg.name, 0, 0⟩⟩ now

/-- A tokenizer oracle: `tok model text` is `some n` when
`tiktoken.encoding_for_model(model).encode(text)` succeeds with `n`
tokens, and `none` when any step raises. -/
abbrev Tokenizer := String → String → Option Nat

/-- `UsageTracker.count_tokens`: on tokenizer success return the token
count; on any exception print a warning and return `0`. -/
def UsageTracker.count_tokens (t : UsageTracker) (tok : Tokenizer)
    (text : String) : Nat :=
  match tok t.model_config.name text with
  | some n => n
  | none => 0

/-- `UsageTracker.add_input_tokens`: count, accumulate into the session,
return the count. -/
def UsageTracker.add_input_tokens (t : UsageTracker) (tok : Tokenizer)
    (text : String) : UsageTracker × Nat :=
  let n := t.count_tokens tok text
  ({ t with session := { t.session with input_tokens := t.session.input_tokens + n } }, n)

/-- `UsageTracker.add_output_tokens`: count, accumulate into the session,
return the count. -/
def UsageTracker.add_output_tokens (t : UsageTracker) (tok : Tokenizer)
    (text : String) : UsageTracker × Nat :=
  let n := t.count_tokens tok text
  ({ t with session := { t.session with output_tokens := t.session.output_tokens + n } }, n)

/-- `UsageTracker.track_llm_interaction`: accumulate prompt/response
tokens, price the interaction at the per-1k rates, and append an `'llm'`
call record. -/
def UsageTracker.track_llm_interaction (t : UsageTracker) (tok : Tokenizer)
    (now prompt response : String) : UsageTracker × CallRecord :=
  let r1 := t.add_input_tokens tok prompt
  let r2 := r1.1.add_output_tokens tok response
  let cost : ℚ :=
    ((r1.2 : ℚ) / 1000) * t.model_config.cost_per_1k_input +
    ((r2.2 : ℚ) / 1000) * t.model_config.cost_per_1k_output
  let cr : CallRecord := ⟨now, "llm", r1.2, r2.2, "", 0, cost⟩
  let added := r2.1.api_tracker.add_call cr
  ({ r2.1 with api_tracker := added.1 }, added.2)

/-- `UsageTracker.track_brave_search`: bump the query counter, price the
call at `brave_cost_per_call * num_results`, append a `'brave'` record. -/
def UsageTracker.track_brave_search (t : UsageTracker)
    (now query : String) (num_results : Nat) : UsageTracker × CallRecord :=
  let t1 := { t with session := { t.session with search_queries := t.session.search_queries + 1 } }
  let cost : ℚ := braveCostPerCall * (num_results : ℚ)
  let cr : CallRecord := ⟨now, "brave", 0, 0, query, num_results, cost⟩
  let added := t1.api_tracker.add_call cr
  ({ t1 with api_tracker := added.1 }, added.2)

/-- `UsageTracker.calculate_cost`: token costs from the session totals
plus the total brave cost. -/
def UsageTracker.calculate_cost (t : UsageTracker) : ℚ :=
  (t.session.input_tokens : ℚ) / 1000 * t.model_config.cost_per_1k_input +
  (t.session.output_tokens : ℚ) / 1000 * t.model_config.cost_per_1k_output +
  t.api_tracker.get_total_brave_cost

/-- The dict returned by `UsageTracker.get_status`. -/
structure Status where
  input_tokens : Nat
  output_tokens : Nat
  search_queries : Nat
  start_time : String
  model : String
  search_results_truncated : Nat
  total_api_calls : Nat
  current_cost : ℚ
  input_cost : ℚ
  output_cost : ℚ
  brave_cost : ℚ
  api_calls_breakdown : List CallRecord
deriving DecidableEq

/-- `UsageTracker.get_status`: the session counters plus the cost
breakdown. -/
def UsageTracker.get_status (t : UsageTracker) : Status :=
  { input_tokens := t.session.input_tokens
    output_tokens := t.session.output_tokens
    search_queries := t.session.search_queries
    start_time := t.session.start_time
    model := t.session.model
    search_results_truncated := t.session.search_results_truncated
    total_api_calls := t.session.total_api_calls
    current_cost := t.calculate_cost
    input_cost := (t.session.input_tokens : ℚ) / 1000 * t.model_config.cost_per_1k_input
    output_cost := (t.session.output_tokens : ℚ) / 1000 * t.model_config.cost_per_1k_output
    brave_cost := t.api_tracker.get_total_brave_cost
    api_calls_breakdown := t.api_tracker.calls }

/-- One line of the `usage_logs.jsonl` append-only log, as assembled by
`save_session`: the session dict plus end time, total cost and the full
call list. -/
structure SessionRecord where
  session : SessionState
  end_time : String
  total_cost : ℚ
  api_calls : List CallRecord
deriving DecidableEq

/-- `UsageTracker.save_session`: append exactly one record to the log and
return.  The method body ends after the file write — it does not call
`reset_session`, so the tracker state is returned unchanged. -/
def UsageTracker.save_session (log : List SessionRecord) (t : UsageTracker)
    (now : String) : List SessionRecord × UsageTracker :=
  (log ++ [⟨t.session, now, t.calculate_cost, t.api_tracker.calls⟩], t)

/-- One tracked external call of a session, for reasoning about arbitrary
sequences of ledger updates. -/
inductive TrackEv where
  | llm (ts prompt response : String)
  | brave (ts query : String) (num_results : Nat)

/-- Apply one tracked call to the ledger state. -/
def trackStep (tok : Tokenizer) (t : UsageTracker) : TrackEv → UsageTracker
  | .llm ts p r => (t.track_llm_interaction tok ts p r).1
  | .brave ts q n => (t.track_brave_search ts q n).1

/-- Apply a sequence of tracked calls to the ledger state. -/
def runTrack (tok : Tokenizer) (t : UsageTracker) (evs : List TrackEv) : UsageTracker :=
  evs.foldl (trackStep tok) t

/-- Sum of the per-call `cost` fields of a call-detail list. -/
def callsCostSum (l : List CallRecord) : ℚ := (l.map (fun c => c.cost)).sum

/-! ### Bar store (`storage/bar_storage.py`) -/

/-- One row of the SQLite `bars` table.  `raw_data` holds the parsed JSON
object of the serialized `raw_data` TEXT column (`none` models SQL NULL). -/
structure BarRow where
  id : String
  name : String
  city : String
  description : Option String
  website : Option String
  menu_url : Option String
  raw_data : Option JObj
  discovered_at : String
  last_updated : String
  search_query : String
deriving DecidableEq

/-- The id derivation of `BarStorage.add_bar`:
`f"{bar_data['name']}_{city}".lower().replace(' ', '_')`. -/
def barId (name city : String) : String :=
  pySpaceToUnderscore (pyLower (name ++ "_" ++ city))

/-- The `bar_data` dict passed to `add_bar`, as produced by the search
step.  `name` is required (`bar_data['name']` would raise otherwise); the
optional fields are read with `.get`; `extra` carries any further keys of
the dict, so that `json.dumps(bar_data)` round-trips through `raw_data`. -/
structure BarData where
  name : String
  description : Option String
  website : Option String
  cocktail_menu_url : Option String
  extra : JObj
deriving DecidableEq

/-- JSON encoding of an optional string field. -/
def optJv : Option String → Jv
  | none => Jv.null
  | some s => Jv.str s

/-- The parsed form of `json.dumps(bar_data)` stored in `raw_data`. -/
def BarData.toRaw (bd : BarData) : JObj :=
  [("name", Jv.str bd.name), ("description", optJv bd.description),
   ("website", optJv bd.website), ("cocktail_menu_url", optJv bd.cocktail_menu_url)]
  ++ bd.extra

/-- `BarStorage.add_bar`: derive the id, `SELECT`/`fetchone` for an
existing row; if found, `UPDATE` its `last_updated` and return `False`;
otherwise `INSERT` the new row and return `True`.  The `except
sqlite3.Error` path is unreachable in this in-memory model. -/
def add_bar (db : List BarRow) (city : String) (bd : BarData)
    (search_query now : String) : List BarRow × Bool :=
  let bar_id := barId bd.name city
  match db.find? (fun r => r.id == bar_id) with
  | some _ =>
      (db.map (fun r => if r.id = bar_id then { r with last_updated := now } else r),
       false)
  | none =>
      (db ++ [⟨bar_id, bd.name, city, bd.description, bd.website,
               bd.cocktail_menu_url, some bd.toRaw, now, now, search_query⟩],
       true)

/-- Comparison used to model `ORDER BY discovered_at DESC` (ISO-8601
strings compare lexicographically; any total order preserves the
membership facts the claims need). -/
def chListLt : List Char → List Char → Bool
  | [], [] => false
  | [], _ :: _ => true
  | _ :: _, [] => false
  | x :: xs, y :: ys =>
      if x.toNat < y.toNat then true
      else if y.toNat < x.toNat then false
      else chListLt xs ys

/-- Insert a row into a list sorted descending by `discovered_at`. -/
def insertByDiscoveredDesc (r : BarRow) : List BarRow → List BarRow
  | [] => [r]
  | x :: xs =>
      if chListLt x.discovered_at.data r.discovered_at.data then r :: x :: xs
      else x :: insertByDiscoveredDesc r xs

/-- `ORDER BY discovered_at DESC` as an insertion sort. -/
def sortByDiscoveredDesc : List BarRow → List BarRow
  | [] => []
  | x :: xs => insertByDiscoveredDesc x (sortByDiscoveredDesc xs)

/-- `BarStorage.get_bars`: optional city filter (Python truthiness: `None`
and `""` disable it), `ORDER BY discovered_at DESC`, optional `LIMIT`
(`limit=0` is falsy and disables it), and `raw_data` popped from each row
unless `include_raw`. -/
def get_bars (db : List BarRow) (city : Option String) (lim : Option Nat)
    (include_raw : Bool) : List BarRow :=
  let filtered :=
    match city with
    | none => db
    | some c => if c = "" then db else db.filter (fun r => r.city == c)
  let ordered := sortByDiscoveredDesc filtered
  let limited :=
    match lim with
    | none => ordered
    | some n => if n = 0 then ordered else ordered.take n
  if include_raw then limited
  else limited.map (fun r => { r with raw_data := none })

/-- The per-row update of `BarStorage.update_menu_info`:
`UPDATE bars SET menu_url = ?, last_updated = ?, raw_data =
json_set(COALESCE(raw_data, '\x7b\x7d'), '$.menu_data', ?) WHERE id = ?`.
The bound value is `json.dumps(menu_data)` — a TEXT parameter, which
`json_set` stores as a JSON string; `menuDataDump` is that serialized
text. -/
def menuUpdRow (bar_id : String) (menu_urls : List String)
    (menuDataDump now : String) (r : BarRow) : BarRow :=
  if r.id = bar_id then
    { r with
      menu_url := menu_urls.head?
      last_updated := now
      raw_data := some (jsonSetTop (r.raw_data.getD []) "menu_data" (Jv.str menuDataDump)) }
  else r

/-- `BarStorage.update_menu_info`: `primary_url = menu_urls[0] if
menu_urls else None`, then the row update above on every matching row;
returns `True` whenever no database error occurs (it does not check that
any row matched). -/
def update_menu_info (db : List BarRow) (bar_id : String)
    (menu_urls : List String) (menuDataDump now : String) : List BarRow × Bool :=
  (db.map (menuUpdRow bar_id menu_urls menuDataDump now), true)

/-! ### Controller (`components/menu_scraper/controller.py`) -/

/-- Python truthiness of the `website` column (`None` and `""` are falsy). -/
def websiteTruthy : Option String → Bool
  | none => false
  | some s => !(s == "")

/-- `MenuScraperController.get_bars_needing_menus`: all bars for the city
(with `include_raw=True`), keeping those with a truthy website whose
`raw_data` is falsy or lacks a top-level `'menu_urls'` key. -/
def get_bars_needing_menus (db : List BarRow) (city : Option String) : List BarRow :=
  (get_bars db city none true).filter (fun bar =>
    websiteTruthy bar.website &&
    (match bar.raw_data with
     | none => true
     | some o => !(jHasKey o "menu_urls")))

/-! ### Menu crawler (`components/menu_scraper/crawler.py`) -/

/-- An anchor as extracted by the `page.evaluate` JavaScript: `href` and
the (already lower-cased) `textContent`. -/
structure Anchor where
  href : String
  text : String
deriving DecidableEq

/-- What a crawled page yields through `_process_page`: the single
all-text blob wrapped in the `cocktails` list, the page's PDF links and
its external-service links. -/
structure PageData where
  cocktails : List String
  pdf_menus : List String
  external_links : List String
deriving DecidableEq

/-- An abstract website: the anchors of each page, whether navigating to a
page succeeds (`page.goto` + `_process_page` without exception), and the
extracted data of each page. -/
structure SiteModel where
  anchors : String → List Anchor
  ok : String → Bool
  pageData : String → PageData

/-- `self.menu_url_patterns`. -/
def menu_url_patterns : List String :=
  ["/menu", "/drinks", "/cocktails", "/bar", "/food-and-drink", "/libations"]

/-- The classification of `_find_menu_links`: URL-pattern match on the
lower-cased href, or else a keyword match on the link text. -/
def isMenuLink (a : Anchor) : Bool :=
  menu_url_patterns.any (fun p => pyContains (pyLower a.href) p) ||
  (["menu", "cocktail", "drinks"].any (fun t => pyContains a.text t))

/-- `_find_menu_links` before deduplication: the JS filter keeps anchors
whose href starts with `http` and lower-cases the text; the Python loop
collects the hrefs that classify as menu links, in page order. -/
def find_menu_links_list (anchors : List Anchor) : List String :=
  (((anchors.filter (fun a => pyStartsWith a.href "http")).map
      (fun a => Anchor.mk a.href (pyLower a.text))).filter isMenuLink).map
    (fun a => a.href)

/-- The aggregate result dict of `find_menu`. -/
structure MenuResult where
  menu_pages : List String
  cocktails : List String
  pdf_menus : List String
  external_menu_links : List String
deriving DecidableEq

/-- The body of the candidate loop of `find_menu`: navigate to the link;
on success append the page and extend the three lists, on a per-link
exception keep the accumulator (the `except` inside the loop). -/
def crawlStep (site : SiteModel) (acc : MenuResult) (link : String) : MenuResult :=
  if site.ok link then
    let pd := site.pageData link
    ⟨acc.menu_pages ++ [link], acc.cocktails ++ pd.cocktails,
     acc.pdf_menus ++ [] ++ pd.pdf_menus, acc.external_menu_links ++ pd.external_links⟩
  else acc

/-- The aggregation of `find_menu` after the homepage loaded: results are
seeded with the homepage data and `menu_pages = [website_url]`, then the
candidate loop runs.  The iteration order of `list(set(menu_links))` is
unspecified in Python (hash-randomized set order), so the enumeration of
the deduplicated candidate set is a parameter `enum`; the theorems
constrain `enum` to enumerate exactly the deduplicated candidates. -/
def crawlAgg (site : SiteModel) (enum : List String) (seed : String) : MenuResult :=
  let hp := site.pageData seed
  enum.foldl (crawlStep site)
    ⟨[seed], hp.cocktails, hp.pdf_menus, hp.external_links⟩

/-- `MenuCrawler.find_menu`: navigate to the seed (failure anywhere in the
`try` before the loop, e.g. the 30s `goto` timeout, is caught at top level
and returned as an error dict), otherwise aggregate over the candidate
enumeration.  Screenshots and the raw-JSON dump are side effects with
their own exception handling and do not affect the result. -/
def find_menu (site : SiteModel) (enum : List String)
    (bar_id seed : String) : Except String MenuResult :=
  if site.ok seed then Except.ok (crawlAgg site enum seed)
  else Except.error ("Error processing " ++ bar_id)

/-! ### Menu processor (`components/menu_scraper/menu_processor.py`) -/

/-- Outcome of the structured-extraction step (`chain.invoke` followed by
`json.loads`): the chain call or the JSON parse raised; or the parse
succeeded but the value is not a list; or a JSON list was obtained. -/
inductive LlmOutcome where
  | failure : LlmOutcome
  | nonList : LlmOutcome
  | jsonList : List Jv → LlmOutcome

/-- The processed dict returned by `process_menu_data`. -/
structure ProcessedData where
  menu_urls : List String
  pdf_menus : List String
  external_menu_links : List String
  cocktails : List Jv
deriving DecidableEq

/-- `MenuDataProcessor.process_menu_data`: pass the URL fields through
from the crawler results; join the raw text blobs and, when there are
any, run extraction — on an exception (caught and logged) or a non-list
result the `cocktails` field keeps its initial `[]`. -/
def process_menu_data (llm : String → LlmOutcome) (cr : MenuResult) : ProcessedData :=
  let base : ProcessedData := ⟨cr.menu_pages, cr.pdf_menus, cr.external_menu_links, []⟩
  if cr.cocktails.isEmpty then base
  else
    match llm (String.intercalate "\n" cr.cocktails) with
    | .jsonList cs => { base with cocktails := cs }
    | _ => base

/-! ### Shared concrete fixtures -/

/-- A stored bar row for concrete evaluations: discovered by search, has a
website, no menu information yet (its `raw_data` is the search payload,
without a `menu_urls` key). -/
def exBar : BarRow :=
  ⟨"the_bar_c", "The Bar", "c", none, some "http://b", none,
   some [("name", Jv.str "The Bar")], "2024-01-01", "2024-01-01", "q"⟩

/-- A website whose homepage has no anchors at all (so zero menu-pattern
links) and loads successfully. -/
def exSiteNoLinks : SiteModel :=
  ⟨fun _ => [], fun _ => true, fun _ => ⟨[], [], []⟩⟩

/-- A sample `bar_data` dict with a two-word name. -/
def exBarData : BarData := ⟨"A B", none, none, none, []⟩

/-! ### Helper lemmas -/

/-- String append acts as list append on the character data. -/
theorem strMk_append (a b : List Char) :
    (String.mk a ++ String.mk b) = String.mk (a ++ b) := rfl

/-- Lower-casing distributes over string append. -/
theorem pyLower_append (a b : String) : pyLower (a ++ b) = pyLower a ++ pyLower b := by
  cases a with
  | mk da =>
    cases b with
    | mk db => simp [pyLower, strMk_append]

/-- Looking up the key just written by `json_set` yields the new value. -/
theorem jGet_jsonSetTop_self (o : JObj) (k : String) (v : Jv) :
    jGet (jsonSetTop o k v) k = some v := by
  induction o with
  | nil => simp [jsonSetTop, jGet]
  | cons kv rest ih =>
    obtain ⟨k0, v0⟩ := kv
    by_cases h : k0 = k
    · simp [jsonSetTop, jGet, h]
    · simp [jsonSetTop, jGet, h, ih]

/-- Looking up any other key after `json_set` is unchanged. -/
theorem jGet_jsonSetTop_ne (o : JObj) (k k2 : String) (v : Jv) (hk : k2 ≠ k) :
    jGet (jsonSetTop o k v) k2 = jGet o k2 := by
  induction o with
  | nil => simp [jsonSetTop, jGet, Ne.symm hk]
  | cons kv rest ih =>
    obtain ⟨k0, v0⟩ := kv
    by_cases h : k0 = k
    · subst h
      simp [jsonSetTop, jGet, Ne.symm hk]
    · by_cases h2 : k0 = k2
      · simp [jsonSetTop, jGet, h, h2, hk]
      · simp [jsonSetTop, jGet, h, h2, ih]

/-! ### C4 — bar id normalization -/

/-- C4 counterexample: the claim says extra or differing whitespace in the
name maps to the same id, but `add_bar` only replaces each space by an
underscore without collapsing runs: `"Bar  A"` and `"Bar A"` in the same
city get different ids. -/
theorem barId_whitespace_counterexample :
    barId "Bar  A" "NYC" = "bar__a_nyc" ∧ barId "Bar A" "NYC" = "bar_a_nyc" ∧
    barId "Bar  A" "NYC" ≠ barId "Bar A" "NYC" := by
  refine ⟨by decide, by decide, by decide⟩

/-- C4 (amended): the id derived by `add_bar` is a pure deterministic
function of `(name, city)`, and inputs differing only in letter case map
to the same id (lower-casing); spaces are each replaced by an underscore,
but whitespace is not collapsed, so differing amounts of whitespace give
different ids. -/
theorem barId_case_fold (n1 n2 c1 c2 : String)
    (hn : pyLower n1 = pyLower n2) (hc : pyLower c1 = pyLower c2) :
    barId n1 c1 = barId n2 c2 := by
  unfold barId
  have h1 : pyLower (n1 ++ "_" ++ c1) = pyLower n2 ++ pyLower "_" ++ pyLower c2 := by
    rw [pyLower_append, pyLower_append, hn, hc]
  have h2 : pyLower (n2 ++ "_" ++ c2) = pyLower n2 ++ pyLower "_" ++ pyLower c2 := by
    rw [pyLower_append, pyLower_append]
  rw [h1, h2]

/-- C4 witness: two case variants of the same name and city collide. -/
theorem barId_case_fold_witness : barId "BAR A" "nyc" = barId "bar a" "NYC" :=
  barId_case_fold "BAR A" "bar a" "nyc" "NYC" (by decide) (by decide)

/-! ### C7 — token counting fallback -/

/-- C7 counterexample: the claim says a tokenizer failure falls back to a
character-length heuristic (a count derived from the text's length, about
`len/4` as used elsewhere in the repository), but `count_tokens` returns
`0` on failure regardless of the text: it returns `0` both for
`"hello world"` (11 characters, heuristic 2) and for the empty string. -/
theorem count_tokens_no_length_heuristic :
    (UsageTracker.start ⟨"gpt-4", 3/100, 6/100⟩ "t0").count_tokens
        (fun _ _ => none) "hello world" = 0 ∧
    (UsageTracker.start ⟨"gpt-4", 3/100, 6/100⟩ "t0").count_tokens
        (fun _ _ => none) "" = 0 ∧
    "hello world".length / 4 = 2 ∧ (0 : Nat) ≠ 2 := by
  refine ⟨rfl, rfl, by decide, by decide⟩

/-- C7 (amended): token counting consults the model-aware tokenizer and
returns its count on success; when the tokenizer fails it does not raise
but logs a warning and returns `0` (not a length-derived count). -/
theorem count_tokens_uses_tokenizer_or_zero (t : UsageTracker) (tok : Tokenizer)
    (text : String) :
    (∀ n, tok t.model_config.name text = some n → t.count_tokens tok text = n) ∧
    (tok t.model_config.name text = none → t.count_tokens tok text = 0) := by
  constructor
  · intro n h
    simp [UsageTracker.count_tokens, h]
  · intro h
    simp [UsageTracker.count_tokens, h]

/-- C7 witness: on a tokenizer that always fails, counting `"hello"`
returns `0`. -/
theorem count_tokens_uses_tokenizer_or_zero_witness :
    (UsageTracker.start ⟨"gpt-4", 3/100, 6/100⟩ "t0").count_tokens
        (fun _ _ => none) "hello" = 0 :=
  (count_tokens_uses_tokenizer_or_zero
    (UsageTracker.start ⟨"gpt-4", 3/100, 6/100⟩ "t0") (fun _ _ => none) "hello").2 rfl

/-! ### C8 — extraction failure is non-fatal -/

/-- C8: when the structured-extraction step fails, `process_menu_data`
still returns the pass-through `menu_urls`, `pdf_menus` and
`external_menu_links` fields taken from the crawler results, with an empty
cocktail list, instead of raising. -/
theorem process_menu_data_failure_passthrough (llm : String → LlmOutcome)
    (cr : MenuResult)
    (h : llm (String.intercalate "\n" cr.cocktails) = LlmOutcome.failure) :
    process_menu_data llm cr =
      ⟨cr.menu_pages, cr.pdf_menus, cr.external_menu_links, []⟩ := by
  unfold process_menu_data
  by_cases hc : cr.cocktails.isEmpty
  · simp [hc]
  · simp [hc, h]

/-- C8 witness: a crawler result with one raw text blob and an extraction
that fails passes the URL fields through with no cocktails. -/
theorem process_menu_data_failure_passthrough_witness :
    process_menu_data (fun _ => LlmOutcome.failure) ⟨["s"], ["txt"], ["p"], ["e"]⟩ =
      ⟨["s"], ["p"], ["e"], []⟩ :=
  process_menu_data_failure_passthrough (fun _ => LlmOutcome.failure)
    ⟨["s"], ["txt"], ["p"], ["e"]⟩ rfl

/-! ### C10 — update_menu_info on a missing bar id -/

/-- C10: for a `bar_id` matching no stored row, `update_menu_info` still
returns `True` and modifies no row: the `UPDATE` simply affects zero rows
and only a database error could make the method report failure. -/
theorem update_menu_info_no_matching_row (db : List BarRow) (bar_id : String)
    (menu_urls : List String) (mdump now : String)
    (h : ∀ r ∈ db, r.id ≠ bar_id) :
    update_menu_info db bar_id menu_urls mdump now = (db, true) := by
  have hmap : ∀ l : List BarRow, (∀ r ∈ l, r.id ≠ bar_id) →
      l.map (menuUpdRow bar_id menu_urls mdump now) = l := by
    intro l hl
    induction l with
    | nil => rfl
    | cons x xs ih =>
      simp only [List.map_cons]
      rw [ih (fun r hr => hl r (List.mem_cons_of_mem _ hr))]
      have hx : x.id ≠ bar_id := hl x (List.mem_cons_self _ _)
      unfold menuUpdRow
      rw [if_neg hx]
  unfold update_menu_info
  rw [hmap db h]

/-- C10 witness: updating a missing id in a one-row store returns `True`
and leaves the store unchanged. -/
theorem update_menu_info_no_matching_row_witness :
    update_menu_info [exBar] "no_such_bar" ["u"] "m" "t2" = ([exBar], true) :=
  update_menu_info_no_matching_row [exBar] "no_such_bar" ["u"] "m" "t2" (by decide)

/-! ### C1 — save_session does not reset the session -/

/-- A concrete ledger after one tracked Brave search of two results. -/
def c1Tracked : UsageTracker :=
  ((UsageTracker.start ⟨"gpt-4", 3/100, 6/100⟩ "2024-01-01").track_brave_search
    "ts1" "best bars" 2).1

/-- The empty log and the tracker above after `save_session`. -/
def c1Saved : List SessionRecord × UsageTracker :=
  UsageTracker.save_session [] c1Tracked "ts2"

/-- C1: evaluating the code at the failing input.  After one tracked
search call, `save_session` appends exactly one complete record to the log
but returns with the tracker state unchanged — its body never calls
`reset_session` — so a subsequent `get_status` still reports one search
query and a nonzero cost instead of zeros. -/
theorem save_session_does_not_reset :
    c1Saved.1.length = 1 ∧
    c1Saved.2 = c1Tracked ∧
    c1Saved.2.get_status.search_queries = 1 ∧
    c1Saved.2.get_status.current_cost = 83 / 50000 ∧
    ¬(c1Saved.2.get_status.search_queries = 0 ∧
      c1Saved.2.get_status.current_cost = 0) := by
  have hq : c1Saved.2.get_status.search_queries = 1 := rfl
  have hcost : c1Saved.2.get_status.current_cost = 83 / 50000 := by
    show UsageTracker.calculate_cost c1Saved.2 = 83 / 50000
    simp [c1Saved, c1Tracked, UsageTracker.calculate_cost, UsageTracker.save_session,
      UsageTracker.track_brave_search, UsageTracker.start, UsageTracker.reset_session,
      APICallTracker.add_call, APICallTracker.get_total_brave_cost, braveCostPerCall]
    norm_num
  refine ⟨rfl, rfl, hq, hcost, ?_⟩
  intro hc
  have h0 := hc.1
  rw [hq] at h0
  exact Nat.one_ne_zero h0

/-! ### C2 — successfully processed bars are selected again -/

/-- C2: evaluating the code at the failing input.  A bar with a website
and no menu data is selected; its site crawls successfully (zero menu
links, so `menu_pages` is exactly the seed); the controller writes the
result through `update_menu_info`, which stores it under the `raw_data`
key `'menu_data'` — but `get_bars_needing_menus` tests for the key
`'menu_urls'`, which is never written, so a repeated run selects the bar
again. -/
theorem processed_bar_still_selected :
    (get_bars_needing_menus [exBar] none).map (fun r => r.id) = ["the_bar_c"] ∧
    find_menu_links_list (exSiteNoLinks.anchors "http://b") = [] ∧
    find_menu exSiteNoLinks [] "the_bar_c" "http://b" =
      Except.ok ⟨["http://b"], [], [], []⟩ ∧
    (get_bars_needing_menus
        (update_menu_info [exBar] "the_bar_c" ["http://b"] "crawldump" "2024-01-02").1
        none).map (fun r => r.id) = ["the_bar_c"] := by
  refine ⟨by decide, by decide, ?_, by decide⟩
  rfl

/-! ### C3 — idempotent upsert -/

/-- Appending to a list in which `find?` fails continues the search in the
appended part. -/
theorem find?_append_of_none {p : BarRow → Bool} {l1 : List BarRow}
    (l2 : List BarRow) (h : l1.find? p = none) :
    (l1 ++ l2).find? p = l2.find? p := by
  induction l1 with
  | nil => simp
  | cons x xs ih =>
    cases hp : p x with
    | true => simp [List.find?_cons, hp] at h
    | false =>
      simp only [List.find?_cons, hp] at h
      simp only [List.cons_append, List.find?_cons, hp]
      exact ih h

/-- C3: calling `add_bar` twice with the same `(name, city)` identity on a
store not yet holding that id leaves exactly one row with the derived id;
the first call reports creation, the second call reports "not newly
created" (`False`), creates no duplicate, and stamps the row's
`last_updated` with the second call's time. -/
theorem add_bar_twice_upsert (db : List BarRow) (city : String) (bd1 bd2 : BarData)
    (sq1 sq2 t1 t2 : String) (hname : bd2.name = bd1.name)
    (hfresh : ∀ r ∈ db, r.id ≠ barId bd1.name city) :
    (add_bar db city bd1 sq1 t1).2 = true ∧
    (add_bar (add_bar db city bd1 sq1 t1).1 city bd2 sq2 t2).2 = false ∧
    ((add_bar (add_bar db city bd1 sq1 t1).1 city bd2 sq2 t2).1.filter
        (fun r => r.id == barId bd1.name city)).length = 1 ∧
    ∀ r ∈ (add_bar (add_bar db city bd1 sq1 t1).1 city bd2 sq2 t2).1,
      r.id = barId bd1.name city → r.last_updated = t2 := by
  have hf1 : db.find? (fun r => r.id == barId bd1.name city) = none := by
    rw [List.find?_eq_none]
    intro x hx
    simpa using hfresh x hx
  have hcall1 : add_bar db city bd1 sq1 t1 =
      (db ++ [⟨barId bd1.name city, bd1.name, city, bd1.description, bd1.website,
        bd1.cocktail_menu_url, some bd1.toRaw, t1, t1, sq1⟩], true) := by
    simp only [add_bar, hf1]
  have hfind2 : (db ++ [(⟨barId bd1.name city, bd1.name, city, bd1.description,
      bd1.website, bd1.cocktail_menu_url, some bd1.toRaw, t1, t1, sq1⟩ : BarRow)]).find?
        (fun r => r.id == barId bd1.name city) =
      some ⟨barId bd1.name city, bd1.name, city, bd1.description, bd1.website,
        bd1.cocktail_menu_url, some bd1.toRaw, t1, t1, sq1⟩ := by
    rw [find?_append_of_none _ hf1]
    simp [List.find?_cons]
  have hcall2 : add_bar (db ++ [(⟨barId bd1.name city, bd1.name, city, bd1.description,
      bd1.website, bd1.cocktail_menu_url, some bd1.toRaw, t1, t1, sq1⟩ : BarRow)]) city bd2 sq2 t2 =
      ((db ++ [(⟨barId bd1.name city, bd1.name, city, bd1.description, bd1.website,
          bd1.cocktail_menu_url, some bd1.toRaw, t1, t1, sq1⟩ : BarRow)]).map
        (fun r => if r.id = barId bd1.name city then { r with last_updated := t2 } else r),
       false) := by
    simp only [add_bar, hname, hfind2]
  refine ⟨?_, ?_, ?_, ?_⟩
  · rw [hcall1]
  · simp only [hcall1, hcall2]
  · simp only [hcall1, hcall2]
    have hlen : ∀ l : List BarRow,
        ((l.map (fun r => if r.id = barId bd1.name city then { r with last_updated := t2 } else r)).filter
          (fun r => r.id == barId bd1.name city)).length =
        (l.filter (fun r => r.id == barId bd1.name city)).length := by
      intro l
      induction l with
      | nil => rfl
      | cons x xs ih =>
        by_cases hx : x.id = barId bd1.name city
        · simp [List.filter_cons, beq_iff_eq, hx, ih]
        · simp [List.filter_cons, beq_iff_eq, hx, ih]
    rw [hlen]
    rw [List.filter_append]
    have hdb : db.filter (fun r => r.id == barId bd1.name city) = [] := by
      rw [List.filter_eq_nil_iff]
      intro x hx
      simpa using hfresh x hx
    rw [hdb]
    simp [List.filter_cons]
  · simp only [hcall1, hcall2]
    intro r hr hid
    obtain ⟨x, hx, rfl⟩ := List.mem_map.mp hr
    by_cases h : x.id = barId bd1.name city
    · rw [if_pos h]
    · rw [if_neg h] at hid ⊢
      exact absurd hid h

/-- C3 witness: two upserts of the bar "A B" in city "c" on an empty store
leave one row, and the second call reports `False` and stamps `t2`. -/
theorem add_bar_twice_upsert_witness :
    (add_bar ([] : List BarRow) "c" exBarData "q1" "t1").2 = true ∧
    (add_bar (add_bar ([] : List BarRow) "c" exBarData "q1" "t1").1 "c" exBarData "q2" "t2").2 = false ∧
    ((add_bar (add_bar ([] : List BarRow) "c" exBarData "q1" "t1").1 "c" exBarData "q2" "t2").1.filter
        (fun r => r.id == barId exBarData.name "c")).length = 1 ∧
    ∀ r ∈ (add_bar (add_bar ([] : List BarRow) "c" exBarData "q1" "t1").1 "c" exBarData "q2" "t2").1,
      r.id = barId exBarData.name "c" → r.last_updated = "t2" :=
  add_bar_twice_upsert [] "c" exBarData exBarData "q1" "q2" "t1" "t2" rfl (by simp)

/-! ### C5 — cost additivity -/

/-- One ledger step preserves "current cost equals the sum of the per-call
costs": an `'llm'` step adds the same token-derived amount to both sides,
a `'brave'` step adds its fixed per-result amount to both sides. -/
theorem cost_sum_step (tok : Tokenizer) (t : UsageTracker) (e : TrackEv)
    (h : t.calculate_cost = callsCostSum t.api_tracker.calls) :
    (trackStep tok t e).calculate_cost =
      callsCostSum (trackStep tok t e).api_tracker.calls := by
  cases e with
  | llm ts p r =>
    simp only [trackStep, UsageTracker.track_llm_interaction,
      UsageTracker.add_input_tokens, UsageTracker.add_output_tokens,
      APICallTracker.add_call, UsageTracker.calculate_cost,
      APICallTracker.get_total_brave_cost, callsCostSum, List.filter_append,
      List.map_append, List.sum_append] at h ⊢
    simp +decide [List.filter_cons, List.filter_nil, List.map_cons, List.map_nil,
      List.sum_cons, List.sum_nil]
    ring_nf
    ring_nf at h
    linarith [h]
  | brave ts q n =>
    simp only [trackStep, UsageTracker.track_brave_search,
      APICallTracker.add_call, UsageTracker.calculate_cost,
      APICallTracker.get_total_brave_cost, callsCostSum, List.filter_append,
      List.map_append, List.sum_append] at h ⊢
    norm_num [List.filter_cons, List.filter_nil, List.map_cons, List.map_nil,
      List.sum_cons, List.sum_nil]
    linarith [h]

/-- Cost additivity is preserved along any sequence of tracked calls. -/
theorem cost_sum_run (tok : Tokenizer) (evs : List TrackEv) :
    ∀ t : UsageTracker, t.calculate_cost = callsCostSum t.api_tracker.calls →
      (runTrack tok t evs).calculate_cost =
        callsCostSum (runTrack tok t evs).api_tracker.calls := by
  induction evs with
  | nil => intro t h; exact h
  | cons e rest ih =>
    intro t h
    exact ih (trackStep tok t e) (cost_sum_step tok t e h)

/-- C5: for any sequence of tracked search and LLM calls in one session
(any tokenizer behaviour, any model rates), the total session cost
reported by the ledger — `calculate_cost`, which is also the
`current_cost` of `get_status` — equals the sum of the per-call `cost`
fields recorded in the call-detail list. -/
theorem session_cost_additivity (tok : Tokenizer) (cfg : ModelConfig)
    (now : String) (evs : List TrackEv) :
    (runTrack tok (UsageTracker.start cfg now) evs).calculate_cost =
      callsCostSum (runTrack tok (UsageTracker.start cfg now) evs).api_tracker.calls ∧
    (runTrack tok (UsageTracker.start cfg now) evs).get_status.current_cost =
      callsCostSum
        (runTrack tok (UsageTracker.start cfg now) evs).get_status.api_calls_breakdown := by
  have hbase : (UsageTracker.start cfg now).calculate_cost =
      callsCostSum (UsageTracker.start cfg now).api_tracker.calls := by
    simp [UsageTracker.start, UsageTracker.reset_session, UsageTracker.calculate_cost,
      APICallTracker.get_total_brave_cost, callsCostSum]
  have hmain := cost_sum_run tok evs (UsageTracker.start cfg now) hbase
  exact ⟨hmain, hmain⟩

/-! ### C6 — crawl result shape -/

/-- The candidate loop of `find_menu` appends to `menu_pages` exactly the
successfully visited links, in loop order. -/
theorem crawl_menu_pages_foldl (site : SiteModel) (l : List String) (acc : MenuResult) :
    (l.foldl (crawlStep site) acc).menu_pages = acc.menu_pages ++ l.filter site.ok := by
  induction l generalizing acc with
  | nil => simp
  | cons x xs ih =>
    by_cases hx : site.ok x = true
    · simp [crawlStep, hx, ih, List.filter_cons, List.append_assoc]
    · have hx2 : site.ok x = false := by
        simpa using hx
      simp [crawlStep, hx2, ih, List.filter_cons]

/-- C6 (amended): when the seed page loads, `find_menu` returns a result
whose `menu_pages` has the seed URL first, followed by exactly the
successfully visited menu candidates in the order in which the crawl
iterates the deduplicated candidate set — the iteration order of Python's
`list(set(menu_links))`, which is unspecified and need not be discovery
order; in particular, on a site with zero menu-pattern links, `menu_pages`
contains exactly the seed URL. -/
theorem find_menu_pages_shape (site : SiteModel) (enum : List String)
    (bar_id seed : String) (hseed : site.ok seed = true)
    (henum : enum.Perm (find_menu_links_list (site.anchors seed)).dedup) :
    find_menu site enum bar_id seed = Except.ok (crawlAgg site enum seed) ∧
    (crawlAgg site enum seed).menu_pages = seed :: enum.filter site.ok ∧
    (find_menu_links_list (site.anchors seed) = [] →
      (crawlAgg site enum seed).menu_pages = [seed]) := by
  have hpages : (crawlAgg site enum seed).menu_pages = seed :: enum.filter site.ok := by
    unfold crawlAgg
    rw [crawl_menu_pages_foldl]
    rfl
  refine ⟨by simp [find_menu, hseed], hpages, ?_⟩
  intro hnil
  have henum2 : enum.Perm ([] : List String) := by
    rw [hnil] at henum
    simpa using henum
  rw [henum2.eq_nil] at hpages ⊢
  simpa using hpages

/-- C6 witness: on a site with no anchors at all, the crawl of the seed
returns `menu_pages = [seed]`. -/
theorem find_menu_pages_shape_witness :
    (crawlAgg exSiteNoLinks [] "http://s").menu_pages =
      "http://s" :: List.filter exSiteNoLinks.ok [] :=
  (find_menu_pages_shape exSiteNoLinks [] "b1" "http://s" rfl (by decide)).2.1

/-- A website whose homepage links to two menu-candidate pages, `/menu`
first and `/bar` second, in that discovery order. -/
def exSiteTwoLinks : SiteModel :=
  ⟨fun u => if u = "http://s" then
      [⟨"http://s/menu", "a"⟩, ⟨"http://s/bar", "b"⟩] else [],
   fun _ => true, fun _ => ⟨[], [], []⟩⟩

/-- C6 counterexample: the deduplicated candidate set of the homepage is
discovered in the order `/menu`, `/bar`, but a legitimate iteration order
of the Python set enumerates it reversed, and then `menu_pages` lists the
successfully visited candidates in that order — not in discovery order, as
the claim states. -/
theorem find_menu_order_counterexample :
    find_menu_links_list (exSiteTwoLinks.anchors "http://s") =
      ["http://s/menu", "http://s/bar"] ∧
    (["http://s/bar", "http://s/menu"]).Perm
      ((find_menu_links_list (exSiteTwoLinks.anchors "http://s")).dedup) ∧
    find_menu exSiteTwoLinks ["http://s/bar", "http://s/menu"] "b1" "http://s" =
      Except.ok ⟨["http://s", "http://s/bar", "http://s/menu"], [], [], []⟩ ∧
    (["http://s", "http://s/bar", "http://s/menu"] : List String) ≠
      ["http://s", "http://s/menu", "http://s/bar"] := by
  refine ⟨by decide, by decide, by rfl, by decide⟩

/-! ### C9 — update_menu_info merges and sets the primary URL -/

/-- C9: for every existing bar row, `update_menu_info` reports success and
rewrites the row in place: `menu_data` is stored under the nested
`'menu_data'` key of the bar's existing raw-provenance payload (created as
the empty object when the payload was NULL) with every other key of the
payload unchanged, the primary `menu_url` column becomes the first entry
of the supplied `menu_urls` list — or NULL (unset) when the list is
empty — and all columns other than `menu_url`, `last_updated` and
`raw_data` keep their values. -/
theorem update_menu_info_frame (db : List BarRow) (bid : String)
    (urls : List String) (mdump now : String) (r : BarRow)
    (hr : r ∈ db) (hid : r.id = bid) :
    (update_menu_info db bid urls mdump now).2 = true ∧
    menuUpdRow bid urls mdump now r ∈ (update_menu_info db bid urls mdump now).1 ∧
    (menuUpdRow bid urls mdump now r).menu_url = urls.head? ∧
    (menuUpdRow bid urls mdump now r).last_updated = now ∧
    jGet ((menuUpdRow bid urls mdump now r).raw_data.getD []) "menu_data" =
      some (Jv.str mdump) ∧
    (∀ k, k ≠ "menu_data" →
      jGet ((menuUpdRow bid urls mdump now r).raw_data.getD []) k =
        jGet (r.raw_data.getD []) k) ∧
    (menuUpdRow bid urls mdump now r).id = r.id ∧
    (menuUpdRow bid urls mdump now r).name = r.name ∧
    (menuUpdRow bid urls mdump now r).city = r.city ∧
    (menuUpdRow bid urls mdump now r).description = r.description ∧
    (menuUpdRow bid urls mdump now r).website = r.website ∧
    (menuUpdRow bid urls mdump now r).discovered_at = r.discovered_at ∧
    (menuUpdRow bid urls mdump now r).search_query = r.search_query := by
  have hrow : menuUpdRow bid urls mdump now r =
      { r with
        menu_url := urls.head?
        last_updated := now
        raw_data := some (jsonSetTop (r.raw_data.getD []) "menu_data" (Jv.str mdump)) } := by
    unfold menuUpdRow
    rw [if_pos hid]
  refine ⟨rfl, List.mem_map_of_mem _ hr, ?_, ?_, ?_, ?_, ?_, ?_, ?_, ?_, ?_, ?_, ?_⟩
  · rw [hrow]
  · rw [hrow]
  · rw [hrow]
    exact jGet_jsonSetTop_self _ _ _
  · intro k hk
    rw [hrow]
    exact jGet_jsonSetTop_ne _ _ _ _ hk
  · rw [hrow]
  · rw [hrow]
  · rw [hrow]
  · rw [hrow]
  · rw [hrow]
  · rw [hrow]
  · rw [hrow]

/-- C9 witness: updating the stored example bar sets its `menu_url` to the
head of the supplied list and nests the dump under `'menu_data'` while the
original `'name'` key survives. -/
theorem update_menu_info_frame_witness :
    (menuUpdRow "the_bar_c" ["u1", "u2"] "md" "t9" exBar).menu_url =
      (["u1", "u2"] : List String).head? ∧
    jGet ((menuUpdRow "the_bar_c" ["u1", "u2"] "md" "t9" exBar).raw_data.getD [])
      "menu_data" = some (Jv.str "md") ∧
    jGet ((menuUpdRow "the_bar_c" ["u1", "u2"] "md" "t9" exBar).raw_data.getD [])
      "name" = jGet (exBar.raw_data.getD []) "name" :=
  ⟨(update_menu_info_frame [exBar] "the_bar_c" ["u1", "u2"] "md" "t9" exBar
      (by simp) rfl).2.2.1,
   (update_menu_info_frame [exBar] "the_bar_c" ["u1", "u2"] "md" "t9" exBar
      (by simp) rfl).2.2.2.2.1,
   (update_menu_info_frame [exBar] "the_bar_c" ["u1", "u2"] "md" "t9" exBar
      (by simp) rfl).2.2.2.2.2.1 "name" (by decide)⟩
